import Mathlib

/-!
Shallow embedding of the restoration orchestration pipeline of
`src/app/main.py` (functions `analyze_building_with_azure`,
`generate_restoration_description_with_azure`, `create_restoration_mockup`,
`restore_building_image`, and the globals `analysis_cache` and
`restoration_results`).

Modelling conventions:
* Environment variables `AZURE_OPENAI_API_KEY` / `AZURE_OPENAI_ENDPOINT` are
  `Option String`; Python's `not x` truthiness test on `os.environ.get(...)`
  is `falsyOpt` (absent or empty string).
* Each remote HTTP interaction is an oracle value passed in explicitly:
  `VisionOutcome` for the chat/vision call in `analyze_building_with_azure`,
  `GenOutcome` for the chat call in
  `generate_restoration_description_with_azure`, and one `PostOutcome` per
  potential `requests.post` of `create_restoration_mockup` (at most two are
  consumed: first attempt and the single moderation retry).
* `PostOutcome.errStatus code text` models a non-200 response whose body is
  `text`; `code` is the result of `json.loads(resp.text).get("error",{}).get("code")`
  with any parse failure collapsed to `none`, exactly as the Python computes
  `err_code`.  `PostOutcome.ok200Malformed` models a 200 response whose body
  makes `resp.json()` (or the `payload["data"][0]["b64_json"]` lookup) raise:
  that exception escapes `_post_once` and `create_restoration_mockup`, so the
  embedding returns `Except.error` there.
* The module-level dicts `analysis_cache` and `restoration_results` are
  threaded as association lists (`List (String × _)`); Python raising is
  `Except.error`.
* `hash(image_data[:100])` is modelled by the key `image_data.take 100`
  itself: Python's `hash` is a deterministic function of that prefix within a
  process, so equal prefixes give equal keys; hash collisions between
  distinct prefixes are not modelled (no claim depends on them).
* `uuid.uuid4().hex` is modelled by `uuid4_hex seed`, a deterministic
  32-hex-digit string of an explicit seed, keeping the one property the code
  relies on (a fresh non-empty identifier).
* Python's `float(...)` is an arbitrary parameter `pf : String → Option Float`
  (`none` = `ValueError`), so every theorem holds for any parsing behaviour.
* All steps of `restore_building_image`'s `try:` body that the embedding
  models are total, but Python lets any statement raise (the
  `except Exception` at main.py:358 exists precisely for that); the
  possibility is represented by one explicit fault-injection point
  (`fault : Option String`) placed after the edit stage and before the
  record is assembled and stored.
-/

namespace DerelictApp

/-- Python truthiness of an `os.environ.get` result: `not x` is true when the
variable is unset (`None`) or set to the empty string. -/
def falsyOpt : Option String → Bool
  | none => true
  | some s => s == ""

/-- Truthiness of an optional string argument (`if lat and lon:` /
`address or ""`). -/
def truthyOpt : Option String → Bool
  | none => false
  | some s => s != ""

/-- main.py:22 `RESTORATION_STYLES`. -/
def RESTORATION_STYLES : List String :=
  ["Modern renovation",
   "Historical restoration",
   "Eco-friendly renovation",
   "Luxury upgrade",
   "Commercial conversion",
   "Residential conversion",
   "Mixed-use development",
   "Minimalist restoration"]

/-- main.py:34 `RESTORATION_PROMPT.format(style_instruction=...,
additional_instructions=...)`. -/
def RESTORATION_PROMPT (style_instruction additional_instructions : String) : String :=
  "\nCreate a realistic visualization of a derelict building after professional restoration and renovation.\n"
    ++ style_instruction ++ "\n"
    ++ additional_instructions ++ "\n"
    ++ "Maintain the same architectural footprint and core structure, but repair all damage.\n"
    ++ "Fix broken windows, repair the facade, update the exterior, and modernize the appearance while respecting the building's original character.\n"
    ++ "Make the surrounding area clean and well-maintained.\n"
    ++ "The result should look like a professional architectural visualization of the restored building.\n"

/-- Fallback analysis text returned at main.py:58 and main.py:100. -/
def fallbackAnalysis : String :=
  "Modern building with standard architectural features requiring restoration."

/-- Outcome of the remote vision call inside `analyze_building_with_azure`
(main.py:62-92): either `response.choices[0].message.content` is obtained, or
some exception is raised during the client interaction (caught at
main.py:98). -/
inductive VisionOutcome
  | success (analysis : String)
  | failure
  deriving DecidableEq, Repr

/-- Outcome of the remote chat call inside
`generate_restoration_description_with_azure` (main.py:115-144). -/
inductive GenOutcome
  | success (description : String)
  | failure (msg : String)
  deriving DecidableEq, Repr

/-- Outcome of one `requests.post` in `_post_once` (main.py:226-237).
`ok200 d` is a 200 response with well-formed JSON body, `d` being
`payload["data"][0]["b64_json"]` when `payload.get("data")` is truthy and
`none` otherwise; `ok200Malformed` is a 200 response on which `resp.json()`
or the data-field indexing raises; `errStatus code text` is a non-200
response with body `text` whose extracted `error.code` is `code`;
`requestError msg` is an exception from `requests.post` itself. -/
inductive PostOutcome
  | requestError (msg : String)
  | ok200 (dataField : Option String)
  | ok200Malformed (msg : String)
  | errStatus (code : Option String) (text : String)
  deriving DecidableEq, Repr

/-- main.py:226-237 `_post_once`: returns `(success, result)`, or raises
(`Except.error`) when the 200 body is malformed. -/
def postOnce : PostOutcome → Except String (Bool × String)
  | .requestError msg => .ok (false, "request_error: " ++ msg)
  | .ok200 (some b64) => .ok (true, b64)
  | .ok200 none => .ok (false, "no_data_key")
  | .ok200Malformed msg => .error msg
  | .errStatus _ text => .ok (false, text)

/-- main.py:248-252: `err_code` extracted from the failure `result` string.
For a non-200 response the result is `resp.text` and the code is whatever
`json.loads(...).get("error",{}).get("code")` yields; the literals
`"request_error: ..."` and `"no_data_key"` are not JSON objects, so those
paths give `None`. -/
def errCodeOf : PostOutcome → Option String
  | .errStatus code _ => code
  | _ => none

/-- Result of one run of `create_restoration_mockup`: the returned string (or
the propagated exception), how many remote edit requests were issued, and
whether the 2-second moderation delay (`time.sleep(2)`, main.py:256) ran. -/
structure MockupRun where
  result : Except String String
  requests : Nat
  slept : Bool
  deriving Repr

/-- main.py:154-267 `create_restoration_mockup`.  `e1` is the outcome of the
first `requests.post`, `e2` of the retry post (consumed only if issued). -/
def create_restoration_mockup (apiKey endpoint : Option String)
    (original_image_data _description : String) (e1 e2 : PostOutcome) : MockupRun :=
  if falsyOpt endpoint || falsyOpt apiKey then
    { result := .ok original_image_data, requests := 0, slept := false }
  else
    match postOnce e1 with
    | .error msg => { result := .error msg, requests := 1, slept := false }
    | .ok (success₁, result₁) =>
      if !success₁ && (errCodeOf e1 == some "moderation_blocked") then
        match postOnce e2 with
        | .error msg => { result := .error msg, requests := 2, slept := true }
        | .ok (success₂, result₂) =>
          { result := .ok (if success₂ && result₂ != "" then result₂ else original_image_data),
            requests := 2, slept := true }
      else
        { result := .ok (if success₁ && result₁ != "" then result₁ else original_image_data),
          requests := 1, slept := false }

/-- Result of one run of `analyze_building_with_azure`: the analysis text,
the updated `analysis_cache`, and whether a remote vision request was
issued. -/
structure AnalyzeRun where
  analysis : String
  cache : List (String × String)
  remoteCalled : Bool
  deriving DecidableEq, Repr

/-- main.py:45-100 `analyze_building_with_azure`.  The cache key is the
100-character payload prefix (see module comment on `hash`). -/
def analyze_building_with_azure (apiKey endpoint : Option String)
    (cache : List (String × String)) (vision : VisionOutcome)
    (image_data : String) : AnalyzeRun :=
  let key := image_data.take 100
  match cache.lookup key with
  | some cached => { analysis := cached, cache := cache, remoteCalled := false }
  | none =>
    if falsyOpt apiKey || falsyOpt endpoint then
      { analysis := fallbackAnalysis, cache := cache, remoteCalled := false }
    else
      match vision with
      | .success analysis =>
        { analysis := analysis, cache := (key, analysis) :: cache, remoteCalled := true }
      | .failure =>
        { analysis := fallbackAnalysis, cache := cache, remoteCalled := true }

/-- main.py:104-150 `generate_restoration_description_with_azure`: raises
(`Except.error`) when credentials are falsy (main.py:111) or when the remote
call fails (re-raised at main.py:150). -/
def generate_restoration_description_with_azure (apiKey endpoint : Option String)
    (gen : GenOutcome) (_prompt _building_analysis : String) : Except String String :=
  if falsyOpt apiKey || falsyOpt endpoint then
    .error "Azure credentials not available"
  else
    match gen with
    | .success description => .ok description
    | .failure msg => .error msg

/-- main.py:282 `uuid.uuid4().hex`, with the randomness replaced by an
explicit seed: always a 32-character lowercase-hex string. -/
def uuid4_hex (seed : Nat) : String :=
  String.mk ((List.range 32).map fun i => Nat.digitChar (seed / 16 ^ i % 16))

/-- main.py:325-334: coerce the `lat`/`lon` strings to floats; a raise from
either `float(...)` resets both to `None`. -/
def parse_location (pf : String → Option Float) (lat lon : Option String) :
    Option Float × Option Float :=
  if truthyOpt lat && truthyOpt lon then
    match pf (lat.getD ""), pf (lon.getD "") with
    | some la, some lo => (some la, some lo)
    | _, _ => (none, none)
  else
    (none, none)

/-- The `options` dict as `restore_building_image` reads it
(main.py:288-299): `style` key possibly absent, four boolean flags read with
default `False`. -/
structure Options where
  style : Option String
  preserve_heritage : Bool
  landscaping : Bool
  lighting : Bool
  expand_building : Bool
  deriving DecidableEq, Repr

/-- main.py:288 `options.get("style", "Modern renovation")`. -/
def selectedStyle (options : Options) : String :=
  options.style.getD "Modern renovation"

/-- main.py:291-302: the `additional_instructions` list joined with `" "`. -/
def additionalInstructionsText (options : Options) (building_analysis : String) : String :=
  String.intercalate " "
    (["Building analysis: " ++ building_analysis]
      ++ (if options.preserve_heritage then
            ["Preserve historical and heritage elements of the building."] else [])
      ++ (if options.landscaping then
            ["Add attractive landscaping and greenery around the building."] else [])
      ++ (if options.lighting then
            ["Add modern and attractive lighting to highlight architectural features."] else [])
      ++ (if options.expand_building then
            ["Consider a tasteful expansion or addition that complements the original structure."] else []))

/-- main.py:314: the templated fallback plan used when
`generate_restoration_description_with_azure` raises. -/
def fallbackPlan (selected_style : String) : String :=
  "Restoration plan for " ++ selected_style ++ " style renovation based on the analysis."

/-- The `result_data` dict persisted at main.py:336-353. -/
structure ResultData where
  id : String
  prompt : String
  original_image : String
  restored_image : String
  options : Options
  azure_analysis : String
  restoration_description : String
  restoration_success : Bool
  address : String
  lat : Option Float
  lon : Option Float
  created_at : String

/-- The three shapes `restore_building_image` can return: the stored record
(main.py:356), the credentials-missing descriptor (main.py:277-280, no `id`
key), or the catch-all failure descriptor (main.py:359-363, which carries the
pre-generated `id`). -/
inductive RestoreOutcome
  | record (r : ResultData)
  | configError (error help : String)
  | pipelineError (error help : String) (id : String)

/-- Result of one run of `restore_building_image`: outcome plus the updated
globals and observable effect counters. -/
structure RestoreRun where
  outcome : RestoreOutcome
  cache : List (String × String)
  store : List (String × ResultData)
  visionRemoteCalled : Bool
  editRequests : Nat
  sleptForRetry : Bool

/-- main.py:277-280 error text. -/
def credsMissingError : String :=
  "Azure credentials not found in environment variables."

/-- main.py:279 help text. -/
def credsMissingHelp : String :=
  "Please set AZURE_OPENAI_API_KEY, AZURE_OPENAI_ENDPOINT, and optionally AZURE_OPENAI_DEPLOYMENT_NAME environment variables."

/-- main.py:361 help text. -/
def pipelineFailHelp : String :=
  "Please check your Azure AI credentials and GPT-4.1 deployment"

/-- main.py:271-363 `restore_building_image`.  `cache`/`store` are the
incoming global dicts, `seed` feeds `uuid4_hex`, `pf` models `float`, `now`
models `time.strftime(...)`, the oracles model the remote calls, and `fault`
is the fault-injection point for an arbitrary uncaught exception in the
`try:` body (see module comment). -/
def restore_building_image (apiKey endpoint : Option String)
    (image_data : String) (options : Options)
    (address lat lon : Option String) (seed : Nat)
    (pf : String → Option Float) (now : String)
    (cache : List (String × String)) (store : List (String × ResultData))
    (vision : VisionOutcome) (gen : GenOutcome) (e1 e2 : PostOutcome)
    (fault : Option String) : RestoreRun :=
  if falsyOpt apiKey || falsyOpt endpoint then
    { outcome := .configError credsMissingError credsMissingHelp,
      cache := cache, store := store,
      visionRemoteCalled := false, editRequests := 0, sleptForRetry := false }
  else
    let result_id := uuid4_hex seed
    let ana := analyze_building_with_azure apiKey endpoint cache vision image_data
    let selected_style := selectedStyle options
    let style_instruction := "Use a " ++ selected_style ++ " style for the restoration."
    let prompt := RESTORATION_PROMPT style_instruction
      (additionalInstructionsText options ana.analysis)
    let restoration_description :=
      match generate_restoration_description_with_azure apiKey endpoint gen prompt ana.analysis with
      | .ok description => description
      | .error _ => fallbackPlan selected_style
    let mock := create_restoration_mockup apiKey endpoint image_data restoration_description e1 e2
    let (restored_img_data, restoration_success) :=
      match mock.result with
      | .ok restored => (restored, restored != image_data)
      | .error _ => (image_data, false)
    match fault with
    | some msg =>
      { outcome := .pipelineError ("Restoration planning failed: " ++ msg)
          pipelineFailHelp result_id,
        cache := ana.cache, store := store,
        visionRemoteCalled := ana.remoteCalled,
        editRequests := mock.requests, sleptForRetry := mock.slept }
    | none =>
      let (latitude, longitude) := parse_location pf lat lon
      let result_data : ResultData :=
        { id := result_id, prompt := prompt,
          original_image := image_data, restored_image := restored_img_data,
          options := options, azure_analysis := ana.analysis,
          restoration_description := restoration_description,
          restoration_success := restoration_success,
          address := address.getD "",
          lat := latitude, lon := longitude, created_at := now }
      { outcome := .record result_data,
        cache := ana.cache, store := (result_id, result_data) :: store,
        visionRemoteCalled := ana.remoteCalled,
        editRequests := mock.requests, sleptForRetry := mock.slept }

/-! ### Helper lemmas -/

/-- `uuid.uuid4().hex` is never the empty string (it has 32 hex digits). -/
theorem uuid4_hex_ne_empty (seed : Nat) : uuid4_hex seed ≠ "" := by
  simp [uuid4_hex, String.ext_iff]

/-- A post outcome that does not make `resp.json()` raise. -/
def wellFormed : PostOutcome → Bool
  | .ok200Malformed _ => false
  | _ => true

/-- C2.  In `create_restoration_mockup`, exactly two remote edit requests are
issued precisely when the first attempt fails with extracted error code
`"moderation_blocked"`; the 2-second delay runs exactly before that retry;
and no call ever issues more than two requests. -/
theorem mockup_moderation_retry_policy
    (apiKey endpoint : Option String) (img d : String) (e1 e2 : PostOutcome)
    (hk : falsyOpt apiKey = false) (he : falsyOpt endpoint = false) :
    ((create_restoration_mockup apiKey endpoint img d e1 e2).requests = 2
        ↔ (∃ r, postOnce e1 = .ok (false, r)) ∧ errCodeOf e1 = some "moderation_blocked")
    ∧ ((create_restoration_mockup apiKey endpoint img d e1 e2).slept = true
        ↔ (create_restoration_mockup apiKey endpoint img d e1 e2).requests = 2)
    ∧ (create_restoration_mockup apiKey endpoint img d e1 e2).requests ≤ 2 := by
  rcases e1 with m | df | m | ⟨code, text⟩
  · simp [create_restoration_mockup, postOnce, errCodeOf, hk, he]
  · rcases df with _ | b64 <;>
      simp [create_restoration_mockup, postOnce, errCodeOf, hk, he]
  · simp [create_restoration_mockup, postOnce, errCodeOf, hk, he]
  · by_cases hc : code = some "moderation_blocked"
    · subst hc
      rcases e2 with m2 | df2 | m2 | ⟨code2, text2⟩
      · simp [create_restoration_mockup, postOnce, errCodeOf, hk, he]
      · rcases df2 with _ | b2 <;>
          simp [create_restoration_mockup, postOnce, errCodeOf, hk, he]
      · simp [create_restoration_mockup, postOnce, errCodeOf, hk, he]
      · simp [create_restoration_mockup, postOnce, errCodeOf, hk, he]
    · simp [create_restoration_mockup, postOnce, errCodeOf, hk, he, hc]

/-- Witness for `mockup_moderation_retry_policy` at a concrete
moderation-blocked first attempt. -/
theorem mockup_moderation_retry_policy_witness :
    ((create_restoration_mockup (some "k") (some "e") "orig" "plan"
        (.errStatus (some "moderation_blocked") "blocked") (.ok200 (some "edited"))).requests = 2
      ↔ (∃ r, postOnce (.errStatus (some "moderation_blocked") "blocked") = .ok (false, r))
          ∧ errCodeOf (.errStatus (some "moderation_blocked") "blocked") = some "moderation_blocked")
    ∧ ((create_restoration_mockup (some "k") (some "e") "orig" "plan"
        (.errStatus (some "moderation_blocked") "blocked") (.ok200 (some "edited"))).slept = true
      ↔ (create_restoration_mockup (some "k") (some "e") "orig" "plan"
        (.errStatus (some "moderation_blocked") "blocked") (.ok200 (some "edited"))).requests = 2)
    ∧ (create_restoration_mockup (some "k") (some "e") "orig" "plan"
        (.errStatus (some "moderation_blocked") "blocked") (.ok200 (some "edited"))).requests ≤ 2 :=
  mockup_moderation_retry_policy (some "k") (some "e") "orig" "plan"
    (.errStatus (some "moderation_blocked") "blocked") (.ok200 (some "edited"))
    (by decide) (by decide)

/-- The restoration plan text chosen by `restore_building_image`
(main.py:310-314): the generated description, or the templated fallback when
generation raised. -/
def chosenPlan (options : Options) : GenOutcome → String
  | .success d => d
  | .failure _ => fallbackPlan (selectedStyle options)

/-- Master characterization of a `restore_building_image` run with both
credentials truthy and no injected fault: a record is built and stored, and
every field is determined by the component functions. -/
theorem restore_run_spec
    (apiKey endpoint : Option String) (image_data : String) (options : Options)
    (address lat lon : Option String) (seed : Nat) (pf : String → Option Float)
    (now : String) (cache : List (String × String)) (store : List (String × ResultData))
    (vision : VisionOutcome) (gen : GenOutcome) (e1 e2 : PostOutcome)
    (hk : falsyOpt apiKey = false) (he : falsyOpt endpoint = false) :
    ∃ r, (restore_building_image apiKey endpoint image_data options address lat lon
            seed pf now cache store vision gen e1 e2 none).outcome = .record r
      ∧ (restore_building_image apiKey endpoint image_data options address lat lon
            seed pf now cache store vision gen e1 e2 none).store = (uuid4_hex seed, r) :: store
      ∧ (restore_building_image apiKey endpoint image_data options address lat lon
            seed pf now cache store vision gen e1 e2 none).cache
          = (analyze_building_with_azure apiKey endpoint cache vision image_data).cache
      ∧ (restore_building_image apiKey endpoint image_data options address lat lon
            seed pf now cache store vision gen e1 e2 none).visionRemoteCalled
          = (analyze_building_with_azure apiKey endpoint cache vision image_data).remoteCalled
      ∧ (restore_building_image apiKey endpoint image_data options address lat lon
            seed pf now cache store vision gen e1 e2 none).editRequests
          = (create_restoration_mockup apiKey endpoint image_data
              (chosenPlan options gen) e1 e2).requests
      ∧ r.id = uuid4_hex seed
      ∧ r.original_image = image_data
      ∧ r.options = options
      ∧ r.azure_analysis = (analyze_building_with_azure apiKey endpoint cache vision image_data).analysis
      ∧ r.prompt = RESTORATION_PROMPT ("Use a " ++ selectedStyle options ++ " style for the restoration.")
          (additionalInstructionsText options
            (analyze_building_with_azure apiKey endpoint cache vision image_data).analysis)
      ∧ r.restoration_description = chosenPlan options gen
      ∧ r.restored_image
          = (match (create_restoration_mockup apiKey endpoint image_data
                (chosenPlan options gen) e1 e2).result with
             | .ok v => v
             | .error _ => image_data)
      ∧ r.restoration_success = (r.restored_image != image_data)
      ∧ r.address = address.getD ""
      ∧ r.lat = (parse_location pf lat lon).1
      ∧ r.lon = (parse_location pf lat lon).2
      ∧ r.created_at = now := by
  cases gen with
  | success d =>
    simp only [restore_building_image, generate_restoration_description_with_azure,
      chosenPlan, hk, he, Bool.or_self, Bool.false_eq_true, if_false]
    rcases hm : (create_restoration_mockup apiKey endpoint image_data d e1 e2).result
      with m | v <;>
      simp only [hm] <;>
      exact ⟨_, rfl, rfl, trivial, trivial, trivial, rfl, rfl, rfl, rfl, rfl, rfl,
        rfl, by simp, rfl, rfl, rfl, rfl⟩
  | failure m =>
    simp only [restore_building_image, generate_restoration_description_with_azure,
      chosenPlan, hk, he, Bool.or_self, Bool.false_eq_true, if_false]
    rcases hm : (create_restoration_mockup apiKey endpoint image_data
        (fallbackPlan (selectedStyle options)) e1 e2).result with m2 | v <;>
      simp only [hm] <;>
      exact ⟨_, rfl, rfl, trivial, trivial, trivial, rfl, rfl, rfl, rfl, rfl, rfl,
        rfl, by simp, rfl, rfl, rfl, rfl⟩

/-- `parse_location` either yields no coordinates at all or both parsed
floats. -/
theorem parse_location_spec (pf : String → Option Float) (lat lon : Option String) :
    parse_location pf lat lon = (none, none)
      ∨ ∃ a b, pf (lat.getD "") = some a ∧ pf (lon.getD "") = some b
          ∧ parse_location pf lat lon = (some a, some b) := by
  by_cases h : (truthyOpt lat && truthyOpt lon) = true
  · rcases hpl : pf (lat.getD "") with _ | a
    · left; simp [parse_location, h, hpl]
    · rcases hpo : pf (lon.getD "") with _ | b
      · left; simp [parse_location, h, hpl, hpo]
      · right; exact ⟨a, b, rfl, rfl, by simp [parse_location, h, hpl, hpo]⟩
  · left; simp [parse_location, h]

/-- Absent, empty or unparseable latitude/longitude inputs coerce to no
location at all. -/
theorem parse_location_degenerate (pf : String → Option Float) (lat lon : Option String)
    (h : truthyOpt lat = false ∨ truthyOpt lon = false
        ∨ pf (lat.getD "") = none ∨ pf (lon.getD "") = none) :
    parse_location pf lat lon = (none, none) := by
  by_cases hc : (truthyOpt lat && truthyOpt lon) = true
  · rcases h with h | h | h | h
    · simp [h] at hc
    · simp [h] at hc
    · simp [parse_location, hc, h]
    · rcases hpl : pf (lat.getD "") with _ | a
      · simp [parse_location, hc, hpl]
      · simp [parse_location, hc, hpl, h]
  · simp [parse_location, hc]

/-- A `restore_building_image` run with truthy credentials in which the body
raises after the edit stage: the catch-all handler's descriptor, and the
result store untouched. -/
theorem restore_fault_spec
    (apiKey endpoint : Option String) (image_data : String) (options : Options)
    (address lat lon : Option String) (seed : Nat) (pf : String → Option Float)
    (now : String) (cache : List (String × String)) (store : List (String × ResultData))
    (vision : VisionOutcome) (gen : GenOutcome) (e1 e2 : PostOutcome) (msg : String)
    (hk : falsyOpt apiKey = false) (he : falsyOpt endpoint = false) :
    (restore_building_image apiKey endpoint image_data options address lat lon
        seed pf now cache store vision gen e1 e2 (some msg)).outcome
      = .pipelineError ("Restoration planning failed: " ++ msg) pipelineFailHelp (uuid4_hex seed)
    ∧ (restore_building_image apiKey endpoint image_data options address lat lon
        seed pf now cache store vision gen e1 e2 (some msg)).store = store := by
  constructor <;> simp [restore_building_image, hk, he]

/-- C4.  Every record persisted by `restore_building_image` has
`restoration_success = true` exactly when the restored image payload differs
from the original input payload, regardless of how any of the remote calls
behaved. -/
theorem restoration_success_iff_image_changed
    (apiKey endpoint : Option String) (image_data : String) (options : Options)
    (address lat lon : Option String) (seed : Nat) (pf : String → Option Float)
    (now : String) (cache : List (String × String)) (store : List (String × ResultData))
    (vision : VisionOutcome) (gen : GenOutcome) (e1 e2 : PostOutcome)
    (hk : falsyOpt apiKey = false) (he : falsyOpt endpoint = false) :
    ∃ r, (restore_building_image apiKey endpoint image_data options address lat lon
            seed pf now cache store vision gen e1 e2 none).outcome = .record r
      ∧ (restore_building_image apiKey endpoint image_data options address lat lon
            seed pf now cache store vision gen e1 e2 none).store.lookup r.id = some r
      ∧ (r.restoration_success = true ↔ r.restored_image ≠ r.original_image) := by
  obtain ⟨r, ho, hs, -, -, -, hid, horig, -, -, -, -, -, hsucc, -, -, -, -⟩ :=
    restore_run_spec apiKey endpoint image_data options address lat lon seed pf now
      cache store vision gen e1 e2 hk he
  refine ⟨r, ho, ?_, ?_⟩
  · rw [hs, hid]; simp [List.lookup]
  · rw [hsucc, horig]; simp

/-- Witness for `restoration_success_iff_image_changed` on a concrete failing
run. -/
theorem restoration_success_iff_image_changed_witness :
    ∃ r, (restore_building_image (some "k") (some "e") "img"
            ⟨none, false, false, false, false⟩ none none none 0 (fun _ => none) "now"
            [] [] .failure (.failure "boom") (.errStatus none "bad") (.errStatus none "bad")
            none).outcome = .record r
      ∧ (restore_building_image (some "k") (some "e") "img"
            ⟨none, false, false, false, false⟩ none none none 0 (fun _ => none) "now"
            [] [] .failure (.failure "boom") (.errStatus none "bad") (.errStatus none "bad")
            none).store.lookup r.id = some r
      ∧ (r.restoration_success = true ↔ r.restored_image ≠ r.original_image) :=
  restoration_success_iff_image_changed (some "k") (some "e") "img"
    ⟨none, false, false, false, false⟩ none none none 0 (fun _ => none) "now"
    [] [] .failure (.failure "boom") (.errStatus none "bad") (.errStatus none "bad")
    (by decide) (by decide)

/-- C9.  Latitude/longitude coercion never fails the pipeline: the record is
still produced, its location fields are exactly the coerced pair, absent or
unparseable inputs give no location at all, and one coordinate is never
stored without the other. -/
theorem restore_location_safe
    (apiKey endpoint : Option String) (image_data : String) (options : Options)
    (address lat lon : Option String) (seed : Nat) (pf : String → Option Float)
    (now : String) (cache : List (String × String)) (store : List (String × ResultData))
    (vision : VisionOutcome) (gen : GenOutcome) (e1 e2 : PostOutcome)
    (hk : falsyOpt apiKey = false) (he : falsyOpt endpoint = false) :
    ∃ r, (restore_building_image apiKey endpoint image_data options address lat lon
            seed pf now cache store vision gen e1 e2 none).outcome = .record r
      ∧ r.lat = (parse_location pf lat lon).1
      ∧ r.lon = (parse_location pf lat lon).2
      ∧ (r.lat = none ↔ r.lon = none)
      ∧ (truthyOpt lat = false ∨ truthyOpt lon = false
          ∨ pf (lat.getD "") = none ∨ pf (lon.getD "") = none →
            r.lat = none ∧ r.lon = none)
      ∧ (r.lat = none ∧ r.lon = none
          ∨ ∃ a b, pf (lat.getD "") = some a ∧ pf (lon.getD "") = some b
              ∧ r.lat = some a ∧ r.lon = some b) := by
  obtain ⟨r, ho, -, -, -, -, -, -, -, -, -, -, -, -, -, hlat, hlon, -⟩ :=
    restore_run_spec apiKey endpoint image_data options address lat lon seed pf now
      cache store vision gen e1 e2 hk he
  have hspec := parse_location_spec pf lat lon
  refine ⟨r, ho, hlat, hlon, ?_, ?_, ?_⟩
  · rcases hspec with hz | ⟨a, b, -, -, hab⟩
    · simp [hlat, hlon, hz]
    · simp [hlat, hlon, hab]
  · intro h
    have hz := parse_location_degenerate pf lat lon h
    simp [hlat, hlon, hz]
  · rcases hspec with hz | ⟨a, b, hpa, hpb, hab⟩
    · left; simp [hlat, hlon, hz]
    · right; exact ⟨a, b, hpa, hpb, by simp [hlat, hab], by simp [hlon, hab]⟩

/-- Witness for `restore_location_safe` with non-numeric latitude and
longitude strings. -/
theorem restore_location_safe_witness :
    ∃ r, (restore_building_image (some "k") (some "e") "img"
            ⟨none, false, false, false, false⟩ none (some "abc") (some "def") 0
            (fun _ => none) "now" [] [] .failure (.failure "boom")
            (.errStatus none "bad") (.errStatus none "bad") none).outcome = .record r
      ∧ r.lat = (parse_location (fun _ => none) (some "abc") (some "def")).1
      ∧ r.lon = (parse_location (fun _ => none) (some "abc") (some "def")).2
      ∧ (r.lat = none ↔ r.lon = none)
      ∧ (truthyOpt (some "abc") = false ∨ truthyOpt (some "def") = false
          ∨ (fun _ => (none : Option Float)) ((some "abc").getD "") = none
          ∨ (fun _ => (none : Option Float)) ((some "def").getD "") = none →
            r.lat = none ∧ r.lon = none)
      ∧ (r.lat = none ∧ r.lon = none
          ∨ ∃ a b, (fun _ => (none : Option Float)) ((some "abc").getD "") = some a
              ∧ (fun _ => (none : Option Float)) ((some "def").getD "") = some b
              ∧ r.lat = some a ∧ r.lon = some b) :=
  restore_location_safe (some "k") (some "e") "img"
    ⟨none, false, false, false, false⟩ none (some "abc") (some "def") 0
    (fun _ => none) "now" [] [] .failure (.failure "boom")
    (.errStatus none "bad") (.errStatus none "bad") (by decide) (by decide)

/-- C1.  `restore_building_image` is total and structured: every run either
returns the credentials-missing configuration descriptor (and does so exactly
when an API key or endpoint credential is absent), or yields a stored record
or a pipeline-failure descriptor, both of which carry a non-empty
identifier. -/
theorem restore_returns_record_or_config_error
    (apiKey endpoint : Option String) (image_data : String) (options : Options)
    (address lat lon : Option String) (seed : Nat) (pf : String → Option Float)
    (now : String) (cache : List (String × String)) (store : List (String × ResultData))
    (vision : VisionOutcome) (gen : GenOutcome) (e1 e2 : PostOutcome)
    (fault : Option String) :
    ((restore_building_image apiKey endpoint image_data options address lat lon
          seed pf now cache store vision gen e1 e2 fault).outcome
        = .configError credsMissingError credsMissingHelp
      ∧ (falsyOpt apiKey || falsyOpt endpoint) = true)
    ∨ (∃ r, (restore_building_image apiKey endpoint image_data options address lat lon
          seed pf now cache store vision gen e1 e2 fault).outcome = .record r
        ∧ r.id ≠ "")
    ∨ (∃ e h, (restore_building_image apiKey endpoint image_data options address lat lon
          seed pf now cache store vision gen e1 e2 fault).outcome = .pipelineError e h (uuid4_hex seed)
        ∧ uuid4_hex seed ≠ "") := by
  by_cases hg : (falsyOpt apiKey || falsyOpt endpoint) = true
  · left
    constructor
    · simp [restore_building_image, hg]
    · exact hg
  · right
    have hk : falsyOpt apiKey = false := by
      rcases Bool.or_eq_false_iff.mp (Bool.not_eq_true _ |>.mp hg) with ⟨h1, -⟩; exact h1
    have he : falsyOpt endpoint = false := by
      rcases Bool.or_eq_false_iff.mp (Bool.not_eq_true _ |>.mp hg) with ⟨-, h2⟩; exact h2
    cases fault with
    | none =>
      left
      obtain ⟨r, ho, -, -, -, -, hid, -, -, -, -, -, -, -, -, -, -, -⟩ :=
        restore_run_spec apiKey endpoint image_data options address lat lon seed pf now
          cache store vision gen e1 e2 hk he
      exact ⟨r, ho, by rw [hid]; exact uuid4_hex_ne_empty seed⟩
    | some msg =>
      right
      exact ⟨_, _, (restore_fault_spec apiKey endpoint image_data options address lat lon
        seed pf now cache store vision gen e1 e2 msg hk he).1, uuid4_hex_ne_empty seed⟩

/-- C5.  When the pipeline body fails after the credential check, the
catch-all descriptor carries the identifier generated before the body ran,
plus a human-readable message, and nothing is stored under that identifier;
the credentials-missing descriptor, produced before identifier generation,
carries no identifier at all. -/
theorem pipeline_failure_descriptor_carries_id
    (apiKey endpoint : Option String) (image_data : String) (options : Options)
    (address lat lon : Option String) (seed : Nat) (pf : String → Option Float)
    (now : String) (cache : List (String × String)) (store : List (String × ResultData))
    (vision : VisionOutcome) (gen : GenOutcome) (e1 e2 : PostOutcome) (msg : String)
    (badKey badEndpoint : Option String) (fault : Option String)
    (hk : falsyOpt apiKey = false) (he : falsyOpt endpoint = false)
    (hbad : (falsyOpt badKey || falsyOpt badEndpoint) = true) :
    (restore_building_image apiKey endpoint image_data options address lat lon
        seed pf now cache store vision gen e1 e2 (some msg)).outcome
      = .pipelineError ("Restoration planning failed: " ++ msg) pipelineFailHelp (uuid4_hex seed)
    ∧ (restore_building_image apiKey endpoint image_data options address lat lon
        seed pf now cache store vision gen e1 e2 (some msg)).store = store
    ∧ (store.lookup (uuid4_hex seed) = none →
        (restore_building_image apiKey endpoint image_data options address lat lon
          seed pf now cache store vision gen e1 e2 (some msg)).store.lookup (uuid4_hex seed) = none)
    ∧ (restore_building_image badKey badEndpoint image_data options address lat lon
        seed pf now cache store vision gen e1 e2 fault).outcome
      = .configError credsMissingError credsMissingHelp := by
  obtain ⟨ho, hs⟩ := restore_fault_spec apiKey endpoint image_data options address lat lon
    seed pf now cache store vision gen e1 e2 msg hk he
  refine ⟨ho, hs, ?_, ?_⟩
  · intro h; rw [hs]; exact h
  · simp [restore_building_image, hbad]

/-- Witness for `pipeline_failure_descriptor_carries_id` at a concrete
injected failure. -/
theorem pipeline_failure_descriptor_carries_id_witness :
    (restore_building_image (some "k") (some "e") "img"
        ⟨none, false, false, false, false⟩ none none none 0 (fun _ => none) "now"
        [] [] .failure (.failure "boom") (.errStatus none "bad") (.errStatus none "bad")
        (some "oops")).outcome
      = .pipelineError ("Restoration planning failed: " ++ "oops") pipelineFailHelp (uuid4_hex 0)
    ∧ (restore_building_image (some "k") (some "e") "img"
        ⟨none, false, false, false, false⟩ none none none 0 (fun _ => none) "now"
        [] [] .failure (.failure "boom") (.errStatus none "bad") (.errStatus none "bad")
        (some "oops")).store = []
    ∧ (List.lookup (uuid4_hex 0) ([] : List (String × ResultData)) = none →
        (restore_building_image (some "k") (some "e") "img"
          ⟨none, false, false, false, false⟩ none none none 0 (fun _ => none) "now"
          [] [] .failure (.failure "boom") (.errStatus none "bad") (.errStatus none "bad")
          (some "oops")).store.lookup (uuid4_hex 0) = none)
    ∧ (restore_building_image none none "img"
        ⟨none, false, false, false, false⟩ none none none 0 (fun _ => none) "now"
        [] [] .failure (.failure "boom") (.errStatus none "bad") (.errStatus none "bad")
        none).outcome
      = .configError credsMissingError credsMissingHelp :=
  pipeline_failure_descriptor_carries_id (some "k") (some "e") "img"
    ⟨none, false, false, false, false⟩ none none none 0 (fun _ => none) "now"
    [] [] .failure (.failure "boom") (.errStatus none "bad") (.errStatus none "bad")
    "oops" none none none (by decide) (by decide) (by decide)

/-- With truthy credentials, `create_restoration_mockup` always issues at
least one remote edit request. -/
theorem one_le_mockup_requests
    (apiKey endpoint : Option String) (img d : String) (e1 e2 : PostOutcome)
    (hk : falsyOpt apiKey = false) (he : falsyOpt endpoint = false) :
    1 ≤ (create_restoration_mockup apiKey endpoint img d e1 e2).requests := by
  rcases e1 with m | df | m | ⟨c, t⟩
  · simp [create_restoration_mockup, postOnce, errCodeOf, hk, he]
  · rcases df with _ | b <;> simp [create_restoration_mockup, postOnce, errCodeOf, hk, he]
  · simp [create_restoration_mockup, postOnce, errCodeOf, hk, he]
  · by_cases hc : c = some "moderation_blocked"
    · subst hc
      rcases e2 with m2 | df2 | m2 | ⟨c2, t2⟩
      · simp [create_restoration_mockup, postOnce, errCodeOf, hk, he]
      · rcases df2 with _ | b2 <;>
          simp [create_restoration_mockup, postOnce, errCodeOf, hk, he]
      · simp [create_restoration_mockup, postOnce, errCodeOf, hk, he]
      · simp [create_restoration_mockup, postOnce, errCodeOf, hk, he]
    · simp [create_restoration_mockup, postOnce, errCodeOf, hk, he, hc]

/-- C6.  A plan-generation failure is propagated by
`generate_restoration_description_with_azure` as an explicit error, and the
orchestrator absorbs it: the stored record's plan text is the style-derived
template and the pipeline still reached the edit stage (at least one edit
request was issued). -/
theorem plan_failure_absorbed_with_templated_plan
    (apiKey endpoint : Option String) (image_data : String) (options : Options)
    (address lat lon : Option String) (seed : Nat) (pf : String → Option Float)
    (now : String) (cache : List (String × String)) (store : List (String × ResultData))
    (vision : VisionOutcome) (gmsg : String) (e1 e2 : PostOutcome) (p a : String)
    (hk : falsyOpt apiKey = false) (he : falsyOpt endpoint = false) :
    generate_restoration_description_with_azure apiKey endpoint (.failure gmsg) p a
      = .error gmsg
    ∧ ∃ r, (restore_building_image apiKey endpoint image_data options address lat lon
            seed pf now cache store vision (.failure gmsg) e1 e2 none).outcome = .record r
        ∧ r.restoration_description = fallbackPlan (selectedStyle options)
        ∧ (restore_building_image apiKey endpoint image_data options address lat lon
            seed pf now cache store vision (.failure gmsg) e1 e2 none).store
          = (uuid4_hex seed, r) :: store
        ∧ 1 ≤ (restore_building_image apiKey endpoint image_data options address lat lon
            seed pf now cache store vision (.failure gmsg) e1 e2 none).editRequests := by
  constructor
  · simp [generate_restoration_description_with_azure, hk, he]
  · obtain ⟨r, ho, hs, -, -, hedit, -, -, -, -, -, hdesc, -, -, -, -, -, -⟩ :=
      restore_run_spec apiKey endpoint image_data options address lat lon seed pf now
        cache store vision (.failure gmsg) e1 e2 hk he
    refine ⟨r, ho, ?_, hs, ?_⟩
    · rw [hdesc]; rfl
    · rw [hedit]
      exact one_le_mockup_requests apiKey endpoint image_data
        (chosenPlan options (.failure gmsg)) e1 e2 hk he

/-- Witness for `plan_failure_absorbed_with_templated_plan` at a concrete
failing plan generation. -/
theorem plan_failure_absorbed_with_templated_plan_witness :
    generate_restoration_description_with_azure (some "k") (some "e") (.failure "down") "p" "a"
      = .error "down"
    ∧ ∃ r, (restore_building_image (some "k") (some "e") "img"
            ⟨none, false, false, false, false⟩ none none none 0 (fun _ => none) "now"
            [] [] .failure (.failure "down") (.errStatus none "bad") (.errStatus none "bad")
            none).outcome = .record r
        ∧ r.restoration_description = fallbackPlan (selectedStyle ⟨none, false, false, false, false⟩)
        ∧ (restore_building_image (some "k") (some "e") "img"
            ⟨none, false, false, false, false⟩ none none none 0 (fun _ => none) "now"
            [] [] .failure (.failure "down") (.errStatus none "bad") (.errStatus none "bad")
            none).store
          = (uuid4_hex 0, r) :: []
        ∧ 1 ≤ (restore_building_image (some "k") (some "e") "img"
            ⟨none, false, false, false, false⟩ none none none 0 (fun _ => none) "now"
            [] [] .failure (.failure "down") (.errStatus none "bad") (.errStatus none "bad")
            none).editRequests :=
  plan_failure_absorbed_with_templated_plan (some "k") (some "e") "img"
    ⟨none, false, false, false, false⟩ none none none 0 (fun _ => none) "now"
    [] [] .failure "down" (.errStatus none "bad") (.errStatus none "bad") "p" "a"
    (by decide) (by decide)

/-- C10.  With no `"style"` key in the options, the pipeline defaults the
style to `"Modern renovation"`: that default appears in the assembled
prompt's style instruction and in the templated fallback plan, the record is
still produced and stored, and a style value outside `RESTORATION_STYLES` is
accepted just the same. -/
theorem missing_style_defaults_modern_renovation
    (apiKey endpoint : Option String) (image_data : String) (b1 b2 b3 b4 : Bool)
    (address lat lon : Option String) (seed : Nat) (pf : String → Option Float)
    (now : String) (cache : List (String × String)) (store : List (String × ResultData))
    (vision : VisionOutcome) (gmsg : String) (e1 e2 : PostOutcome) (s : String)
    (hk : falsyOpt apiKey = false) (he : falsyOpt endpoint = false)
    (hs : s ∉ RESTORATION_STYLES) :
    selectedStyle ⟨none, b1, b2, b3, b4⟩ = "Modern renovation"
    ∧ (∃ r, (restore_building_image apiKey endpoint image_data ⟨none, b1, b2, b3, b4⟩
            address lat lon seed pf now cache store vision (.failure gmsg) e1 e2
            none).outcome = .record r
        ∧ r.prompt = RESTORATION_PROMPT "Use a Modern renovation style for the restoration."
            (additionalInstructionsText ⟨none, b1, b2, b3, b4⟩ r.azure_analysis)
        ∧ r.restoration_description = fallbackPlan "Modern renovation"
        ∧ (restore_building_image apiKey endpoint image_data ⟨none, b1, b2, b3, b4⟩
            address lat lon seed pf now cache store vision (.failure gmsg) e1 e2
            none).store.lookup r.id = some r)
    ∧ (∃ r, (restore_building_image apiKey endpoint image_data ⟨some s, b1, b2, b3, b4⟩
            address lat lon seed pf now cache store vision (.failure gmsg) e1 e2
            none).outcome = .record r
        ∧ r.prompt = RESTORATION_PROMPT ("Use a " ++ s ++ " style for the restoration.")
            (additionalInstructionsText ⟨some s, b1, b2, b3, b4⟩ r.azure_analysis)) := by
  refine ⟨rfl, ?_, ?_⟩
  · obtain ⟨r, ho, hstore, -, -, -, hid, -, -, hana, hp, hdesc, -, -, -, -, -, -⟩ :=
      restore_run_spec apiKey endpoint image_data ⟨none, b1, b2, b3, b4⟩
        address lat lon seed pf now cache store vision (.failure gmsg) e1 e2 hk he
    have hsel : selectedStyle (⟨none, b1, b2, b3, b4⟩ : Options) = "Modern renovation" := rfl
    have hsty : ("Use a " ++ "Modern renovation" ++ " style for the restoration.")
        = "Use a Modern renovation style for the restoration." := by decide
    refine ⟨r, ho, ?_, ?_, ?_⟩
    · rw [hp, hsel, hsty, hana]
    · rw [hdesc]; rfl
    · rw [hstore, hid]; simp [List.lookup]
  · obtain ⟨r, ho, -, -, -, -, -, -, -, hana, hp, -, -, -, -, -, -, -⟩ :=
      restore_run_spec apiKey endpoint image_data ⟨some s, b1, b2, b3, b4⟩
        address lat lon seed pf now cache store vision (.failure gmsg) e1 e2 hk he
    exact ⟨r, ho, by rw [hp, hana]; rfl⟩

/-- Witness for `missing_style_defaults_modern_renovation`, with a style
value outside the fixed enumeration for the non-validation part. -/
theorem missing_style_defaults_modern_renovation_witness :
    selectedStyle ⟨none, true, false, false, false⟩ = "Modern renovation"
    ∧ (∃ r, (restore_building_image (some "k") (some "e") "img"
            ⟨none, true, false, false, false⟩ none none none 0 (fun _ => none) "now"
            [] [] .failure (.failure "down") (.errStatus none "bad") (.errStatus none "bad")
            none).outcome = .record r
        ∧ r.prompt = RESTORATION_PROMPT "Use a Modern renovation style for the restoration."
            (additionalInstructionsText ⟨none, true, false, false, false⟩ r.azure_analysis)
        ∧ r.restoration_description = fallbackPlan "Modern renovation"
        ∧ (restore_building_image (some "k") (some "e") "img"
            ⟨none, true, false, false, false⟩ none none none 0 (fun _ => none) "now"
            [] [] .failure (.failure "down") (.errStatus none "bad") (.errStatus none "bad")
            none).store.lookup r.id = some r)
    ∧ (∃ r, (restore_building_image (some "k") (some "e") "img"
            ⟨some "Brutalist chaos", true, false, false, false⟩ none none none 0
            (fun _ => none) "now" [] [] .failure (.failure "down")
            (.errStatus none "bad") (.errStatus none "bad") none).outcome = .record r
        ∧ r.prompt = RESTORATION_PROMPT ("Use a " ++ "Brutalist chaos" ++ " style for the restoration.")
            (additionalInstructionsText ⟨some "Brutalist chaos", true, false, false, false⟩
              r.azure_analysis)) :=
  missing_style_defaults_modern_renovation (some "k") (some "e") "img"
    true false false false none none none 0 (fun _ => none) "now" [] []
    .failure "down" (.errStatus none "bad") (.errStatus none "bad") "Brutalist chaos"
    (by decide) (by decide) (by decide)

/-- C3.  `create_restoration_mockup` hands back the original payload rather
than raising on every unrecovered failure the claim lists: with a missing
API key or endpoint credential it returns the original before issuing any
request (for arbitrary would-be responses, main.py:169-171), and when
neither issued edit attempt succeeds (and neither response makes the JSON
decoding raise) it likewise returns the original; the orchestrator then
still persists a record whose edited image equals the original with
`restoration_success = false`. -/
theorem mockup_failure_returns_original
    (apiKey endpoint badKey badEndpoint : Option String) (image_data d : String)
    (options : Options)
    (address lat lon : Option String) (seed : Nat) (pf : String → Option Float)
    (now : String) (cache : List (String × String)) (store : List (String × ResultData))
    (vision : VisionOutcome) (gen : GenOutcome) (e1 e2 e1' e2' : PostOutcome)
    (hbad : (falsyOpt badEndpoint || falsyOpt badKey) = true)
    (hw1 : wellFormed e1 = true) (hw2 : wellFormed e2 = true)
    (h1 : ∀ s, postOnce e1 ≠ .ok (true, s))
    (h2 : ∀ s, postOnce e2 ≠ .ok (true, s))
    (hk : falsyOpt apiKey = false) (he : falsyOpt endpoint = false) :
    (create_restoration_mockup badKey badEndpoint image_data d e1' e2').result = .ok image_data
    ∧ (create_restoration_mockup badKey badEndpoint image_data d e1' e2').requests = 0
    ∧ (create_restoration_mockup apiKey endpoint image_data d e1 e2).result = .ok image_data
    ∧ ∃ r, (restore_building_image apiKey endpoint image_data options address lat lon
            seed pf now cache store vision gen e1 e2 none).outcome = .record r
        ∧ r.restored_image = image_data
        ∧ r.restoration_success = false
        ∧ r.original_image = image_data := by
  refine ⟨by simp [create_restoration_mockup, hbad], by simp [create_restoration_mockup, hbad], ?_⟩
  have key : ∀ descr, (create_restoration_mockup apiKey endpoint image_data descr e1 e2).result
      = .ok image_data := by
    intro descr
    by_cases hg : (falsyOpt endpoint || falsyOpt apiKey) = true
    · simp [create_restoration_mockup, hg]
    · rcases e1 with m | df | m | ⟨c, t⟩
      · simp [create_restoration_mockup, hg, postOnce, errCodeOf]
      · rcases df with _ | b
        · simp [create_restoration_mockup, hg, postOnce, errCodeOf]
        · exact absurd (rfl : postOnce (.ok200 (some b)) = .ok (true, b)) (h1 b)
      · simp [wellFormed] at hw1
      · by_cases hc : c = some "moderation_blocked"
        · subst hc
          rcases e2 with m2 | df2 | m2 | ⟨c2, t2⟩
          · simp [create_restoration_mockup, hg, postOnce, errCodeOf]
          · rcases df2 with _ | b2
            · simp [create_restoration_mockup, hg, postOnce, errCodeOf]
            · exact absurd (rfl : postOnce (.ok200 (some b2)) = .ok (true, b2)) (h2 b2)
          · simp [wellFormed] at hw2
          · simp [create_restoration_mockup, hg, postOnce, errCodeOf]
        · simp [create_restoration_mockup, hg, postOnce, errCodeOf, hc]
  refine ⟨key d, ?_⟩
  obtain ⟨r, ho, -, -, -, -, -, horig, -, -, -, -, hrest, hsucc, -, -, -, -⟩ :=
    restore_run_spec apiKey endpoint image_data options address lat lon seed pf now
      cache store vision gen e1 e2 hk he
  have hres : r.restored_image = image_data := by
    rw [hrest, key (chosenPlan options gen)]
  exact ⟨r, ho, hres, by rw [hsucc, hres]; simp, horig⟩

/-- Witness for `mockup_failure_returns_original` with absent credentials on
the one side and two non-200 responses on the other. -/
theorem mockup_failure_returns_original_witness :
    (create_restoration_mockup none none "img" "plan"
        (.ok200Malformed "junk") (.ok200Malformed "junk")).result = .ok "img"
    ∧ (create_restoration_mockup none none "img" "plan"
        (.ok200Malformed "junk") (.ok200Malformed "junk")).requests = 0
    ∧ (create_restoration_mockup (some "k") (some "e") "img" "plan"
        (.errStatus (some "moderation_blocked") "blocked") (.errStatus none "bad")).result
      = .ok "img"
    ∧ ∃ r, (restore_building_image (some "k") (some "e") "img"
            ⟨none, false, false, false, false⟩ none none none 0 (fun _ => none) "now"
            [] [] .failure (.failure "down")
            (.errStatus (some "moderation_blocked") "blocked") (.errStatus none "bad")
            none).outcome = .record r
        ∧ r.restored_image = "img"
        ∧ r.restoration_success = false
        ∧ r.original_image = "img" :=
  mockup_failure_returns_original (some "k") (some "e") none none "img" "plan"
    ⟨none, false, false, false, false⟩ none none none 0 (fun _ => none) "now"
    [] [] .failure (.failure "down")
    (.errStatus (some "moderation_blocked") "blocked") (.errStatus none "bad")
    (.ok200Malformed "junk") (.ok200Malformed "junk")
    (by decide) (by decide) (by decide)
    (by intro s; simp [postOnce]) (by intro s; simp [postOnce])
    (by decide) (by decide)

/-- C7 counterexample.  Two `analyze_building_with_azure` calls on the very
same image payload (hence byte-identical 100-character prefixes) each issue a
remote vision request when the first call's remote request fails: the failed
first call does not populate the cache, so the second call is not served from
the cache and issues a second remote call — contradicting "at most one remote
vision call is issued: the second call returns the cached analysis without
any remote request". -/
theorem analyze_repeat_after_failure_counterexample :
    (analyze_building_with_azure (some "k") (some "e") [] .failure "img").remoteCalled = true
    ∧ (analyze_building_with_azure (some "k") (some "e") [] .failure "img").cache = []
    ∧ (analyze_building_with_azure (some "k") (some "e")
        (analyze_building_with_azure (some "k") (some "e") [] .failure "img").cache
        (.success "desc") "img").remoteCalled = true := by
  decide

/-- C7 (amended).  If the first call's remote vision request succeeds, a
second call whose payload shares the byte-identical 100-character prefix is
served from the cache with no remote request; the cache is populated only by
a successful remote call — neither the remote-failure fallback nor the
missing-credentials fallback writes to it. -/
theorem analyze_cache_hit_after_success
    (apiKey endpoint : Option String) (cache : List (String × String))
    (img1 img2 t : String) (vision2 : VisionOutcome) (v : VisionOutcome)
    (badKey badEndpoint : Option String)
    (hk : falsyOpt apiKey = false) (he : falsyOpt endpoint = false)
    (hpre : img1.take 100 = img2.take 100)
    (hmiss : cache.lookup (img1.take 100) = none)
    (hbad : (falsyOpt badKey || falsyOpt badEndpoint) = true) :
    (analyze_building_with_azure apiKey endpoint cache (.success t) img1).remoteCalled = true
    ∧ (analyze_building_with_azure apiKey endpoint
        (analyze_building_with_azure apiKey endpoint cache (.success t) img1).cache
        vision2 img2).remoteCalled = false
    ∧ (analyze_building_with_azure apiKey endpoint
        (analyze_building_with_azure apiKey endpoint cache (.success t) img1).cache
        vision2 img2).analysis = t
    ∧ (analyze_building_with_azure apiKey endpoint cache .failure img1).cache = cache
    ∧ (analyze_building_with_azure badKey badEndpoint cache v img1).cache = cache := by
  have h1 : analyze_building_with_azure apiKey endpoint cache (.success t) img1
      = { analysis := t, cache := (img1.take 100, t) :: cache, remoteCalled := true } := by
    simp [analyze_building_with_azure, hmiss, hk, he]
  have h2 : analyze_building_with_azure apiKey endpoint ((img1.take 100, t) :: cache) vision2 img2
      = { analysis := t, cache := (img1.take 100, t) :: cache, remoteCalled := false } := by
    simp [analyze_building_with_azure, List.lookup, ← hpre]
  refine ⟨by rw [h1], by rw [h1, h2], by rw [h1, h2], ?_, ?_⟩
  · simp [analyze_building_with_azure, hmiss, hk, he]
  · rcases hmiss' : cache.lookup (img1.take 100) with _ | cached <;>
      simp [analyze_building_with_azure, hmiss', hbad]

/-- Witness for `analyze_cache_hit_after_success` on concrete payloads. -/
theorem analyze_cache_hit_after_success_witness :
    (analyze_building_with_azure (some "k") (some "e") [] (.success "victorian") "img").remoteCalled = true
    ∧ (analyze_building_with_azure (some "k") (some "e")
        (analyze_building_with_azure (some "k") (some "e") [] (.success "victorian") "img").cache
        .failure "img").remoteCalled = false
    ∧ (analyze_building_with_azure (some "k") (some "e")
        (analyze_building_with_azure (some "k") (some "e") [] (.success "victorian") "img").cache
        .failure "img").analysis = "victorian"
    ∧ (analyze_building_with_azure (some "k") (some "e") [] .failure "img").cache = []
    ∧ (analyze_building_with_azure none none [] .failure "img").cache = [] :=
  analyze_cache_hit_after_success (some "k") (some "e") [] "img" "img" "victorian"
    .failure .failure none none (by decide) (by decide) rfl (by decide) (by decide)

/-- C8 counterexample.  On a concrete failing run (credentials present, the
remote vision interaction raising), `analyze_building_with_azure` returns
the literal fallback `"Modern building with standard architectural features
requiring restoration."`, which is not the text `"generic building requiring
restoration"` stated by the claim. -/
theorem analyze_fallback_text_counterexample :
    (analyze_building_with_azure (some "k") (some "e") [] .failure "x").analysis
      = "Modern building with standard architectural features requiring restoration."
    ∧ (analyze_building_with_azure (some "k") (some "e") [] .failure "x").analysis
      ≠ "generic building requiring restoration" := by
  decide

/-- C8 (amended).  On any failure not served from the cache — missing
credentials or a raising remote interaction — `analyze_building_with_azure`
propagates nothing and returns the generic fallback description
`"Modern building with standard architectural features requiring
restoration."`, so downstream stages always receive usable text. -/
theorem analyze_failure_returns_fallback
    (apiKey endpoint : Option String) (cache : List (String × String))
    (img : String) (v : VisionOutcome)
    (hmiss : cache.lookup (img.take 100) = none)
    (hfail : (falsyOpt apiKey || falsyOpt endpoint) = true ∨ v = .failure) :
    (analyze_building_with_azure apiKey endpoint cache v img).analysis = fallbackAnalysis := by
  rcases hfail with h | h
  · simp [analyze_building_with_azure, hmiss, h]
  · subst h
    by_cases hg : (falsyOpt apiKey || falsyOpt endpoint) = true <;>
      simp [analyze_building_with_azure, hmiss, hg]

/-- Witness for `analyze_failure_returns_fallback` at a concrete failing
remote interaction. -/
theorem analyze_failure_returns_fallback_witness :
    (analyze_building_with_azure (some "k") (some "e") [] .failure "img").analysis
      = fallbackAnalysis :=
  analyze_failure_returns_fallback (some "k") (some "e") [] "img" .failure
    (by decide) (Or.inr rfl)

end DerelictApp
